import Mathlib

/-!
Shallow embedding of `src/build/serve.py` (the AirPlay receiver build download
server) and proofs about it.

Modelling conventions:
* The filesystem visible to the server is a map from relative file names
  (paths under the served directory `DIRECTORY`) to the file's bytes, each
  byte a `Nat` below 256.  `Path.exists` is `Option.isSome` of the lookup and
  `Path.stat().st_size` is the length of the byte list (it fails, like the
  Python call, when the file is absent — modelled in `Except`).
* An HTTP response is its status code, its header list (in send order) and
  its body bytes.  `self.wfile.write(html.encode())` is modelled by a UTF-8
  encoder `utf8Encode` defined below; Python's `len(html)` is the code-point
  count, i.e. `String.length` of the Lean string.
* Python's `f"{x:.1f}"` applied to `S / (1024*1024)` (true division producing
  an IEEE double) is modelled by exact rational rounding to one decimal with
  ties to even (`format1f`).  Since 1024*1024 = 2^20, the double `S / 2^20`
  is exact for every `S < 2^53`, where Python's formatting is exactly
  round-half-even of the rational `S / 2^20` — so the model agrees with
  CPython for all file sizes below 8 PiB.
-/

/-- A byte is a `Nat` (values below 256 in any real file). -/
abbrev Byte := Nat

/-- The served directory's contents: file name (relative to `DIRECTORY`) to
file bytes, `none` when no such file exists. -/
abbrev FileSystem := String → Option (List Byte)

/-- `PORT = 8080` (src/build/serve.py:14). -/
def PORT : Nat := 8080

/-- An HTTP response: status line code, headers in the order they are sent,
and the body bytes written to the socket. -/
structure Response where
  status : Nat
  headers : List (String × String)
  body : List Byte
deriving DecidableEq, Repr

/-- The three headers `end_headers` adds to every response before flushing
(src/build/serve.py:21-26). -/
def corsHeaders : List (String × String) :=
  [("Access-Control-Allow-Origin", "*"),
   ("Access-Control-Allow-Methods", "GET, OPTIONS"),
   ("Cache-Control", "no-store, no-cache, must-revalidate")]

/-- `end_headers` (src/build/serve.py:21-26): every response is flushed through
this override, which appends the three fixed headers to the buffered ones. -/
def end_headers (r : Response) : Response :=
  { r with headers := r.headers ++ corsHeaders }

/-- UTF-8 encoding of one Unicode scalar value (what `str.encode()` emits per
character). -/
def charUtf8 (c : Char) : List Byte :=
  let n := c.toNat
  if n < 0x80 then [n]
  else if n < 0x800 then [0xC0 + n / 64, 0x80 + n % 64]
  else if n < 0x10000 then
    [0xE0 + n / 4096, 0x80 + (n / 64) % 64, 0x80 + n % 64]
  else
    [0xF0 + n / 262144, 0x80 + (n / 4096) % 64, 0x80 + (n / 64) % 64, 0x80 + n % 64]

/-- `html.encode()`: UTF-8 bytes of a string. -/
def utf8Encode (s : String) : List Byte :=
  (s.data.map charUtf8).flatten

/-- Round `num / den` to the nearest integer, ties to even (the rounding of
CPython's `format(x, ".1f")` on an exactly-representable double). -/
def roundHalfEven (num den : Nat) : Nat :=
  let q := num / den
  let r := num % den
  if 2 * r < den then q
  else if den < 2 * r then q + 1
  else if q % 2 = 0 then q else q + 1

/-- `f"{S / (1024 * 1024):.1f}"` (src/build/serve.py:41,46 with 181,199): the
byte size `S` divided by 2^20 and formatted with one decimal digit.  Exact for
every `S < 2^53` (see the module docstring). -/
def format1f (S : Nat) : String :=
  let t := roundHalfEven (10 * S) (1024 * 1024)
  toString (t / 10) ++ "." ++ toString (t % 10)

/-- `zip_file_orig` (src/build/serve.py:38). -/
def zip_file_orig : String := "airplay-receiver-windows-x64-audio.zip"

/-- `zip_file_core` (src/build/serve.py:44). -/
def zip_file_core : String := "airplay-core-test-win-x64.zip"

def chunk0 : String := "<!DOCTYPE html>\n<html lang=\"en\">\n<head>\n    <meta charset=\"UTF-8\">\n    <meta name=\"viewport\" content=\"width=device-width, initial-scale=1.0\">\n    <title>AirPlay Receiver - Windows Build</title>\n    <style>\n        * \x7b margin: 0; padding: 0; box-sizing: border-box; \x7d\n        body \x7b\n            font-family: -apple-system, BlinkMacSystemFont, \"Segoe UI\", Roboto, \"Helvetica Neue\", Arial, sans-serif;\n            line-height: 1.6;\n            color: #333;\n            background: linear-gradient(135deg, #667eea 0%, #764ba2 100%);\n            min-height: 100vh;\n            display: flex;\n            align-items: center;\n            justify-content: center;\n            padding: 20px;\n        \x7d\n        .container \x7b\n            background: white;\n            border-radius: 20px;\n            box-shadow: 0 20px 60px rgba(0,0,0,0.3);\n            max-width: 800px;\n            width: 100%;\n            padding: 50px;\n        \x7d\n        h1 \x7b\n            color: #667eea;\n            font-size: 2.5em;\n            margin-bottom: 10px;\n            text-align: center;\n        \x7d\n        .subtitle \x7b\n            text-align: center;\n            color: #666;\n            margin-bottom: 40px;\n            font-size: 1.1em;\n        \x7d\n        .download-section \x7b\n            background: #f8f9fa;\n            border-radius: 15px;\n            padding: 30px;\n            margin: 30px 0;\n            text-align: center;\n        \x7d\n        .download-btn \x7b\n            display: inline-block;\n            background: linear-gradient(135deg, #667eea 0%, #764ba2 100%);\n            color: white;\n            text-decoration: none;\n            padding: 18px 40px;\n            border-radius: 50px;\n            font-size: 1.2em;\n            font-weight: 600;\n            transition: transform 0.2s, box-shadow 0.2s;\n            box-shadow: 0 10px 25px rgba(102, 126, 234, 0.4);\n        \x7d\n        .download-btn:hover \x7b\n            transform: translateY(-2px);\n            box-shadow: 0 15px 35px rgba(102, 126, 234, 0.5);\n        \x7d\n        .file-info \x7b\n            margin-top: 15px;\n            color: #666;\n            font-size: 0.95em;\n        \x7d\n        .features \x7b\n            list-style: none;\n            margin: 30px 0;\n        \x7d\n        .features li \x7b\n            padding: 12px 0;\n            border-bottom: 1px solid #eee;\n        \x7d\n        .features li:last-child \x7b\n            border-bottom: none;\n        \x7d\n        .features li:before \x7b\n            content: \""

def chunk1 : String := "\";\n            color: #667eea;\n            font-weight: bold;\n            margin-right: 10px;\n        \x7d\n        .requirements \x7b\n            background: #fff3cd;\n            border-left: 4px solid #ffc107;\n            padding: 15px;\n            margin: 20px 0;\n            border-radius: 5px;\n        \x7d\n        .requirements h3 \x7b\n            color: #856404;\n            margin-bottom: 10px;\n        \x7d\n        .footer \x7b\n            text-align: center;\n            margin-top: 30px;\n            padding-top: 20px;\n            border-top: 1px solid #eee;\n            color: #666;\n            font-size: 0.9em;\n        \x7d\n        .footer a \x7b\n            color: #667eea;\n            text-decoration: none;\n        \x7d\n        .footer a:hover \x7b\n            text-decoration: underline;\n        \x7d\n    </style>\n</head>\n<body>\n    <div class=\"container\">\n        <h1>"

def chunk2 : String := " AirPlay Receiver</h1>\n        <p class=\"subtitle\">.NET 8.0 Builds - Choose Your Version</p>\n\n        <h2 style=\"color: #667eea; margin-top: 30px; margin-bottom: 15px;\">"

def chunk3 : String := " AirPlay.Core Build (RECOMMENDED)</h2>\n        <div class=\"download-section\">\n            <a href=\""

def chunk4 : String := "\" class=\"download-btn\" download>\n                "

def chunk5 : String := " Download AirPlay.Core Test\n            </a>\n            <div class=\"file-info\">\n                File: "

def chunk6 : String := "<br>\n                Size: "

def chunk7 : String := " MB<br>\n                <strong>Pure C# audio decoders (no native DLLs!) - Test this first!</strong>\n            </div>\n        </div>\n\n        <h2 style=\"color: #764ba2; margin-top: 40px; margin-bottom: 15px;\">Original Build</h2>\n        <div class=\"download-section\">\n            <a href=\""

def chunk8 : String := "\" class=\"download-btn\" download style=\"background: linear-gradient(135deg, #764ba2 0%, #667eea 100%);\">\n                "

def chunk9 : String := " Download Original\n            </a>\n            <div class=\"file-info\">\n                File: "

def chunk10 : String := "<br>\n                Size: "

def chunk11 : String := " MB<br>\n                Uses native DLLs for audio decoding\n            </div>\n        </div>\n\n        <div class=\"requirements\">\n            <h3>What\x27s Different?</h3>\n            <p><strong>AirPlay.Core:</strong> Uses pure C# audio decoders (SharpJaad.AAC, LibALAC) - more portable, claimed to have working audio<br>\n            <strong>Original:</strong> Uses native DLLs (libfdk-aac-2.dll, libalac-0.dll) - had choppy audio issues</p>\n        </div>\n\n        <ul class=\"features\">\n            <li><strong>Audio Playback</strong> - Stream music from iPhone to Windows speakers (working!)</li>\n            <li><strong>.NET 8.0</strong> - Modern runtime with better performance and security</li>\n            <li><strong>Portable</strong> - No installation required, includes all dependencies</li>\n            <li><strong>Pre-configured</strong> - Works immediately after extraction</li>\n        </ul>\n\n        <h3 style=\"margin-top: 30px; color: #667eea;\">Quick Start</h3>\n        <ol style=\"margin-left: 20px; color: #555;\">\n            <li>Download and extract the ZIP file</li>\n            <li>For AirPlay.Core: Double-click <code>AirPlayCoreTest.exe</code></li>\n            <li>For Original: Double-click <code>AirPlay.exe</code></li>\n            <li>Allow through Windows Firewall when prompted</li>\n            <li>Open Control Center on iOS and select the AirPlay receiver</li>\n        </ol>\n\n        <div class=\"footer\">\n            <p>Open source implementation of AirPlay 2 protocol</p>\n            <p>Source: <a href=\"https://github.com/SteeBono/airplayreceiver\" target=\"_blank\">github.com/SteeBono/airplayreceiver</a></p>\n        </div>\n    </div>\n</body>\n</html>"

/-- The HTML template of `serve_index` (the Python f-string, src/build/serve.py:49-216),
with the two archive file names and the two formatted sizes interpolated at the
same positions as in the source. -/
def indexHtml (mbOrig mbCore : String) : String :=
  chunk0 ++ "✓" ++ chunk1 ++ "🎵" ++
  chunk2 ++ "🆕" ++ chunk3 ++ zip_file_core ++
  chunk4 ++ "📦" ++ chunk5 ++ zip_file_core ++
  chunk6 ++ mbCore ++ chunk7 ++ zip_file_orig ++
  chunk8 ++ "📦" ++ chunk9 ++ zip_file_orig ++
  chunk10 ++ mbOrig ++ chunk11

/-- `zip_path.exists()` for a file name under `DIRECTORY`. -/
def pathExists (fs : FileSystem) (name : String) : Bool :=
  (fs name).isSome

/-- `zip_path.stat().st_size`: fails (like the Python `OSError`) when the file
does not exist, otherwise returns the byte size. -/
def stat_st_size (fs : FileSystem) (name : String) : Except String Nat :=
  match fs name with
  | some bytes => .ok bytes.length
  | none => .error "FileNotFoundError"

/-- `serve_index` (src/build/serve.py:35-224): read the two archive sizes
(guarded by existence checks, absent files count as 0), render the HTML page,
and send it with status 200, `Content-type: text/html` and `Content-Length`
set to `str(len(html))` — the code-point count of the string, while the body
written is `html.encode()`, its UTF-8 bytes. -/
def serve_index (fs : FileSystem) : Except String Response := do
  let zip_size_orig ←
    if pathExists fs zip_file_orig then stat_st_size fs zip_file_orig else pure 0
  let zip_size_mb_orig := format1f zip_size_orig
  let zip_size_core ←
    if pathExists fs zip_file_core then stat_st_size fs zip_file_core else pure 0
  let zip_size_mb_core := format1f zip_size_core
  let html := indexHtml zip_size_mb_orig zip_size_mb_core
  pure (end_headers
    { status := 200
      headers := [("Content-type", "text/html"),
                  ("Content-Length", toString html.length)]
      body := utf8Encode html })

/-- The request path relative to the served root (drop the leading slash). -/
def relPath (p : String) : String :=
  if "/".isPrefixOf p then p.drop 1 else p

/-- Modelled from the spec: `SimpleHTTPRequestHandler`'s static file serving is
Python standard-library code, not part of src/.  Per the spec: for any path
other than `/` the request is delegated to standard static-file serving rooted
at the configured directory; result "200 with file bytes and inferred content
type, or 404 if absent"; every response still passes through the overridden
`end_headers`. -/
def staticServe (fs : FileSystem) (p : String) : Response :=
  match fs (relPath p) with
  | some bytes =>
      end_headers
        { status := 200
          headers := [("Content-Length", toString bytes.length)]
          body := bytes }
  | none =>
      end_headers
        { status := 404
          headers := []
          body := utf8Encode "File not found" }

/-- `do_GET` (src/build/serve.py:28-33): the custom index for the exact path
`"/"`, everything else delegated to `super().do_GET()` (static file serving). -/
def do_GET (fs : FileSystem) (path : String) : Except String Response :=
  if path = "/" then serve_index fs
  else pure (staticServe fs path)

/-- The exceptional outcome `main`'s `try` block ends with: a
`KeyboardInterrupt`, or an `OSError` with its `errno` and its `str(e)` text
(`serve_forever` never returns normally). -/
inductive ServerEvent where
  | keyboardInterrupt : ServerEvent
  | osError : Nat → String → ServerEvent
deriving DecidableEq, Repr

/-- What the process does on exiting: the console lines printed by the
exception handlers, and the `sys.exit` status code. -/
structure ProcessExit where
  printed : List String
  code : Nat
deriving DecidableEq, Repr

/-- The exception handling of `main` (src/build/serve.py:226-247), named
`serveMain` here because Lean reserves `main`:
`KeyboardInterrupt` prints a shutdown message and exits 0; an `OSError` with
`errno == 98` (address in use) prints the port-in-use hint and exits 1; any
other `OSError` prints the raw error text and exits 1. -/
def serveMain (ev : ServerEvent) : ProcessExit :=
  match ev with
  | .keyboardInterrupt => { printed := ["\n\n  Server stopped."], code := 0 }
  | .osError errno msg =>
      if errno = 98 then
        { printed := ["\n  Error: Port " ++ toString PORT ++ " is already in use.",
                      "  Try closing other applications or use a different port."]
          code := 1 }
      else
        { printed := ["\n  Error: " ++ msg], code := 1 }

/-- The archive size `serve_index` observes for a file name: the on-disk size
when the file exists, 0 otherwise. -/
def observedSize (fs : FileSystem) (name : String) : Nat :=
  match fs name with
  | some bytes => bytes.length
  | none => 0

/-- The response `serve_index` produces for observed sizes `so` (original
build) and `sc` (AirPlay.Core build). -/
def indexResponse (so sc : Nat) : Response :=
  let html := indexHtml (format1f so) (format1f sc)
  end_headers
    { status := 200
      headers := [("Content-type", "text/html"),
                  ("Content-Length", toString html.length)]
      body := utf8Encode html }

theorem serve_index_eq (fs : FileSystem) :
    serve_index fs =
      .ok (indexResponse (observedSize fs zip_file_orig)
                         (observedSize fs zip_file_core)) := by
  unfold serve_index observedSize indexResponse pathExists stat_st_size
  cases fs zip_file_orig <;> cases fs zip_file_core <;> rfl

theorem utf8Encode_append (a b : String) :
    utf8Encode (a ++ b) = utf8Encode a ++ utf8Encode b := by
  simp [utf8Encode, String.data_append]

theorem charUtf8_len_pos (c : Char) : 1 ≤ (charUtf8 c).length := by
  unfold charUtf8
  dsimp only
  split <;> [simp; skip]
  split <;> [simp; skip]
  split <;> simp

theorem utf8Encode_len_ge_list (l : List Char) :
    l.length ≤ ((l.map charUtf8).flatten).length := by
  induction l with
  | nil => simp
  | cons c cs ih =>
      simp only [List.map_cons, List.flatten_cons, List.length_append, List.length_cons]
      have := charUtf8_len_pos c
      omega

theorem utf8Encode_len_ge (s : String) : s.length ≤ (utf8Encode s).length :=
  utf8Encode_len_ge_list s.data

theorem indexHtml_len_lt (mbOrig mbCore : String) :
    (indexHtml mbOrig mbCore).length < (utf8Encode (indexHtml mbOrig mbCore)).length := by
  have h0 := utf8Encode_len_ge chunk0
  have h1 := utf8Encode_len_ge chunk1
  have h2 := utf8Encode_len_ge chunk2
  have h3 := utf8Encode_len_ge chunk3
  have h4 := utf8Encode_len_ge chunk4
  have h5 := utf8Encode_len_ge chunk5
  have h6 := utf8Encode_len_ge chunk6
  have h7 := utf8Encode_len_ge chunk7
  have h8 := utf8Encode_len_ge chunk8
  have h9 := utf8Encode_len_ge chunk9
  have h10 := utf8Encode_len_ge chunk10
  have h11 := utf8Encode_len_ge chunk11
  have ho := utf8Encode_len_ge mbOrig
  have hc := utf8Encode_len_ge mbCore
  have hzo := utf8Encode_len_ge zip_file_orig
  have hzc := utf8Encode_len_ge zip_file_core
  have hcheck := utf8Encode_len_ge "✓"
  have hnew := utf8Encode_len_ge "🆕"
  have hpkg := utf8Encode_len_ge "📦"
  have hmusic : ("🎵" : String).length + 3 ≤ (utf8Encode "🎵").length := by decide
  simp only [indexHtml, String.length_append, utf8Encode_append, List.length_append]
  omega

theorem mem_end_headers (r : Response) (p : String × String) (hp : p ∈ corsHeaders) :
    p ∈ (end_headers r).headers := by
  simp only [end_headers, List.mem_append]
  exact Or.inr hp

/-- C1: the claim says the `Content-Length` header on the root response equals
the exact byte length of the UTF-8-encoded body.  It does not: `serve_index`
sets the header from `len(html)` — the number of code points — while it writes
`html.encode()`, whose UTF-8 byte length is strictly larger because the page
contains multi-byte characters (✓, 🎵, 🆕, 📦).  At any request to `/` (here:
both archives absent) the header value is strictly smaller than the number of
body bytes transmitted. -/
theorem C1_content_length_bug :
    ∃ r : Response, serve_index (fun _ => none) = .ok r ∧
      r.status = 200 ∧
      ("Content-type", "text/html") ∈ r.headers ∧
      ∃ n : Nat, ("Content-Length", toString n) ∈ r.headers ∧ n < r.body.length := by
  refine ⟨indexResponse 0 0, serve_index_eq _, rfl, ?_, ?_⟩
  · simp [indexResponse, end_headers]
  · refine ⟨(indexHtml (format1f 0) (format1f 0)).length, ?_, ?_⟩
    · simp [indexResponse, end_headers]
    · exact indexHtml_len_lt (format1f 0) (format1f 0)

/-- C2: every response the server sends — the generated index as well as the
static-file branch, any status — carries the three fixed headers
`Access-Control-Allow-Origin: *`, `Access-Control-Allow-Methods: GET, OPTIONS`
and `Cache-Control: no-store, no-cache, must-revalidate`, because every send
path flushes through the overridden `end_headers`. -/
theorem C2_fixed_headers (fs : FileSystem) (path : String) (r : Response)
    (h : do_GET fs path = .ok r) :
    ("Access-Control-Allow-Origin", "*") ∈ r.headers ∧
    ("Access-Control-Allow-Methods", "GET, OPTIONS") ∈ r.headers ∧
    ("Cache-Control", "no-store, no-cache, must-revalidate") ∈ r.headers := by
  have hr : ∃ r0, r = end_headers r0 := by
    unfold do_GET at h
    by_cases hp : path = "/"
    · rw [if_pos hp, serve_index_eq] at h
      exact ⟨_, (Except.ok.injEq _ _ ▸ h.symm : r = indexResponse _ _)⟩
    · rw [if_neg hp] at h
      have hst : r = staticServe fs path := (Except.ok.injEq _ _ ▸ h.symm)
      cases hfs : fs (relPath path) <;>
        · simp only [staticServe, hfs] at hst
          exact ⟨_, hst⟩
  obtain ⟨r0, rfl⟩ := hr
  refine ⟨mem_end_headers _ _ ?_, mem_end_headers _ _ ?_, mem_end_headers _ _ ?_⟩ <;> simp [corsHeaders]

theorem C2_fixed_headers_witness :
    ("Access-Control-Allow-Origin", "*") ∈ (staticServe (fun _ => none) "/x").headers ∧
    ("Access-Control-Allow-Methods", "GET, OPTIONS") ∈ (staticServe (fun _ => none) "/x").headers ∧
    ("Cache-Control", "no-store, no-cache, must-revalidate") ∈ (staticServe (fun _ => none) "/x").headers :=
  C2_fixed_headers (fun _ => none) "/x" _ rfl

/-- C3: if a named archive is absent from disk at request time, `serve_index`
still answers with status 200 and renders that archive's size slot as `0.0`
(the other slot showing its own observed size); rendering never fails. -/
theorem C3_missing_archive (fs : FileSystem) :
    (fs zip_file_core = none →
      ∃ r, serve_index fs = .ok r ∧ r.status = 200 ∧
        r.body = utf8Encode (indexHtml (format1f (observedSize fs zip_file_orig)) "0.0")) ∧
    (fs zip_file_orig = none →
      ∃ r, serve_index fs = .ok r ∧ r.status = 200 ∧
        r.body = utf8Encode (indexHtml "0.0" (format1f (observedSize fs zip_file_core)))) := by
  have hfmt : format1f 0 = "0.0" := by decide
  constructor
  · intro h
    refine ⟨_, serve_index_eq fs, rfl, ?_⟩
    simp [indexResponse, end_headers, observedSize, h, hfmt]
  · intro h
    refine ⟨_, serve_index_eq fs, rfl, ?_⟩
    simp [indexResponse, end_headers, observedSize, h, hfmt]

theorem C3_missing_archive_witness :
    (∃ r, serve_index (fun _ => none) = .ok r ∧ r.status = 200 ∧
      r.body = utf8Encode (indexHtml (format1f (observedSize (fun _ => none) zip_file_orig)) "0.0")) ∧
    (∃ r, serve_index (fun _ => none) = .ok r ∧ r.status = 200 ∧
      r.body = utf8Encode (indexHtml "0.0" (format1f (observedSize (fun _ => none) zip_file_core)))) :=
  ⟨(C3_missing_archive (fun _ => none)).1 rfl, (C3_missing_archive (fun _ => none)).2 rfl⟩

/-- C4: any path other than `/` is delegated to static-file serving rooted at
the served directory: a file present under the root is answered 200 with
exactly its on-disk bytes as body; an absent target is answered 404.  (The
static serving itself is Python stdlib code, modelled from the spec in
`staticServe`.) -/
theorem C4_static_file_serving (fs : FileSystem) (p : String) (h : p ≠ "/") :
    ∃ r, do_GET fs p = .ok r ∧
      ((∃ bytes, fs (relPath p) = some bytes ∧ r.status = 200 ∧ r.body = bytes) ∨
       (fs (relPath p) = none ∧ r.status = 404)) := by
  refine ⟨staticServe fs p, by unfold do_GET; rw [if_neg h]; rfl, ?_⟩
  cases hfs : fs (relPath p) with
  | some bytes =>
      refine Or.inl ⟨bytes, rfl, ?_, ?_⟩ <;> simp [staticServe, hfs, end_headers]
  | none =>
      refine Or.inr ⟨rfl, ?_⟩
      simp [staticServe, hfs, end_headers]

theorem C4_static_file_serving_witness :
    (∃ r, do_GET (fun n => if n = "f.txt" then some [104, 105] else none) "/f.txt" = .ok r ∧
      ((∃ bytes, (fun n => if n = "f.txt" then some [104, 105] else none : FileSystem) (relPath "/f.txt") = some bytes ∧
          r.status = 200 ∧ r.body = bytes) ∨
       ((fun n => if n = "f.txt" then some [104, 105] else none : FileSystem) (relPath "/f.txt") = none ∧
          r.status = 404))) ∧
    (∃ r, do_GET (fun _ => none) "/missing.zip" = .ok r ∧
      ((∃ bytes, (fun _ => none : FileSystem) (relPath "/missing.zip") = some bytes ∧
          r.status = 200 ∧ r.body = bytes) ∨
       ((fun _ => none : FileSystem) (relPath "/missing.zip") = none ∧ r.status = 404))) :=
  ⟨C4_static_file_serving _ "/f.txt" (by decide),
   C4_static_file_serving _ "/missing.zip" (by decide)⟩

/-- C5: when an archive is present with byte size `S`, the root page renders,
in that archive's size slot, `S / (1024*1024)` formatted to one decimal place
(`format1f S`): the body is the template with that formatted value
interpolated, hence the page contains the formatted value as a substring. -/
theorem C5_size_rendering (fs : FileSystem) :
    (∀ bytes, fs zip_file_core = some bytes →
      ∃ r, serve_index fs = .ok r ∧ r.status = 200 ∧
        r.body = utf8Encode (indexHtml (format1f (observedSize fs zip_file_orig))
                                       (format1f bytes.length)) ∧
        ∃ pre post,
          indexHtml (format1f (observedSize fs zip_file_orig)) (format1f bytes.length) =
            pre ++ format1f bytes.length ++ post) ∧
    (∀ bytes, fs zip_file_orig = some bytes →
      ∃ r, serve_index fs = .ok r ∧ r.status = 200 ∧
        r.body = utf8Encode (indexHtml (format1f bytes.length)
                                       (format1f (observedSize fs zip_file_core))) ∧
        ∃ pre post,
          indexHtml (format1f bytes.length) (format1f (observedSize fs zip_file_core)) =
            pre ++ format1f bytes.length ++ post) := by
  constructor
  · intro bytes h
    refine ⟨_, serve_index_eq fs, rfl, ?_, ?_⟩
    · simp [indexResponse, end_headers, observedSize, h]
    · exact ⟨chunk0 ++ "✓" ++ chunk1 ++ "🎵" ++ chunk2 ++ "🆕" ++ chunk3 ++ zip_file_core ++
        chunk4 ++ "📦" ++ chunk5 ++ zip_file_core ++ chunk6,
        chunk7 ++ zip_file_orig ++ chunk8 ++ "📦" ++ chunk9 ++ zip_file_orig ++
        chunk10 ++ format1f (observedSize fs zip_file_orig) ++ chunk11,
        by simp [indexHtml, String.append_assoc]⟩
  · intro bytes h
    refine ⟨_, serve_index_eq fs, rfl, ?_, ?_⟩
    · simp [indexResponse, end_headers, observedSize, h]
    · exact ⟨chunk0 ++ "✓" ++ chunk1 ++ "🎵" ++ chunk2 ++ "🆕" ++ chunk3 ++ zip_file_core ++
        chunk4 ++ "📦" ++ chunk5 ++ zip_file_core ++ chunk6 ++
        format1f (observedSize fs zip_file_core) ++ chunk7 ++ zip_file_orig ++
        chunk8 ++ "📦" ++ chunk9 ++ zip_file_orig ++ chunk10,
        chunk11,
        by simp [indexHtml, String.append_assoc]⟩

/-- A concrete filesystem holding both archives, for witnesses: the original
build is 2 bytes, the AirPlay.Core build 1 byte. -/
def fsBoth : FileSystem := fun n =>
  if n = zip_file_orig then some [1, 2]
  else if n = zip_file_core then some [3] else none

theorem C5_size_rendering_witness :
    (∃ r, serve_index fsBoth = .ok r ∧ r.status = 200 ∧
      r.body = utf8Encode (indexHtml (format1f (observedSize fsBoth zip_file_orig))
                                     (format1f ([3] : List Byte).length)) ∧
      ∃ pre post,
        indexHtml (format1f (observedSize fsBoth zip_file_orig)) (format1f ([3] : List Byte).length) =
          pre ++ format1f ([3] : List Byte).length ++ post) ∧
    (∃ r, serve_index fsBoth = .ok r ∧ r.status = 200 ∧
      r.body = utf8Encode (indexHtml (format1f ([1, 2] : List Byte).length)
                                     (format1f (observedSize fsBoth zip_file_core))) ∧
      ∃ pre post,
        indexHtml (format1f ([1, 2] : List Byte).length) (format1f (observedSize fsBoth zip_file_core)) =
          pre ++ format1f ([1, 2] : List Byte).length ++ post) :=
  ⟨(C5_size_rendering fsBoth).1 [3] (by decide),
   (C5_size_rendering fsBoth).2 [1, 2] (by decide)⟩

/-- C6: the index page is a deterministic function of the observed state of
the two archive files: two filesystems in which each archive has the same
existence status and the same byte size (equal `Option.map List.length`)
yield identical `serve_index` responses — in particular repeated requests with
no filesystem change yield byte-identical bodies. -/
theorem C6_deterministic (fs fs' : FileSystem)
    (horig : (fs zip_file_orig).map List.length = (fs' zip_file_orig).map List.length)
    (hcore : (fs zip_file_core).map List.length = (fs' zip_file_core).map List.length) :
    serve_index fs = serve_index fs' := by
  rw [serve_index_eq, serve_index_eq]
  have e1 : observedSize fs zip_file_orig = observedSize fs' zip_file_orig := by
    unfold observedSize
    cases h : fs zip_file_orig <;> cases h' : fs' zip_file_orig <;>
      simp [h, h'] at horig ⊢
    omega
  have e2 : observedSize fs zip_file_core = observedSize fs' zip_file_core := by
    unfold observedSize
    cases h : fs zip_file_core <;> cases h' : fs' zip_file_core <;>
      simp [h, h'] at hcore ⊢
    omega
  rw [e1, e2]

theorem C6_deterministic_witness :
    serve_index (fun _ => none) = serve_index (fun _ => none) :=
  C6_deterministic (fun _ => none) (fun _ => none) rfl rfl

/-- C7: a bind failure with `errno == 98` (port already in use) prints the
specific two-line hint and exits with status 1; any other `OSError` prints the
raw error text and exits with status 1.  `serveMain` maps each failure
directly to a single `ProcessExit` — no retry. -/
theorem C7_bind_errors (errno : Nat) (msg : String) (h : errno ≠ 98) :
    serveMain (.osError 98 msg) =
      { printed := ["\n  Error: Port 8080 is already in use.",
                    "  Try closing other applications or use a different port."]
        code := 1 } ∧
    serveMain (.osError errno msg) =
      { printed := ["\n  Error: " ++ msg], code := 1 } := by
  constructor
  · rfl
  · simp [serveMain, h]

theorem C7_bind_errors_witness :
    serveMain (.osError 98 "bind failure") =
      { printed := ["\n  Error: Port 8080 is already in use.",
                    "  Try closing other applications or use a different port."]
        code := 1 } ∧
    serveMain (.osError 13 "Permission denied") =
      { printed := ["\n  Error: " ++ "Permission denied"], code := 1 } :=
  C7_bind_errors 13 "Permission denied" (by decide)

/-- C8: a `KeyboardInterrupt` while the server runs is caught, a shutdown
message is printed and the process exits with status 0. -/
theorem C8_interrupt :
    serveMain .keyboardInterrupt = { printed := ["\n\n  Server stopped."], code := 0 } := rfl

/-- C9: dispatch in `do_GET` is an exact string comparison with `"/"`: only
the path exactly `"/"` gets the generated index; every other path string —
including `"/?x=1"` and `"/index.html"` — goes to static file serving. -/
theorem C9_exact_dispatch (fs : FileSystem) (p : String) :
    do_GET fs "/" = serve_index fs ∧
    (p ≠ "/" → do_GET fs p = .ok (staticServe fs p)) := by
  constructor
  · simp [do_GET]
  · intro h
    unfold do_GET
    rw [if_neg h]
    rfl

theorem C9_exact_dispatch_witness :
    (do_GET (fun _ => none) "/" = serve_index (fun _ => none) ∧
      do_GET (fun _ => none) "/?x=1" = .ok (staticServe (fun _ => none) "/?x=1")) ∧
    do_GET (fun _ => none) "/index.html" = .ok (staticServe (fun _ => none) "/index.html") :=
  ⟨⟨(C9_exact_dispatch (fun _ => none) "/?x=1").1,
    (C9_exact_dispatch (fun _ => none) "/?x=1").2 (by decide)⟩,
   (C9_exact_dispatch (fun _ => none) "/index.html").2 (by decide)⟩

/-- C10: `serve_index` is total on every filesystem snapshot: the `stat` call
(which fails on a missing file) is guarded by an existence check for the same
file, so for every combination of the two archives being present or absent the
handler produces a response, never an exception. -/
theorem C10_serve_index_total (fs : FileSystem) :
    ∃ r : Response, serve_index fs = .ok r :=
  ⟨_, serve_index_eq fs⟩
